import Mathlib

/-!
Verification of the `cos_util` repository: two command-line utilities over a
cloud object-storage SDK.

The Python sources (`upload_to_cos.py`, `list_cos_objects.py`) are embedded
shallowly.  The filesystem, the MIME-type guesser and the storage SDK are
abstract parameters (`FS`, a `guess` function, `Remote` / `ListClient`); the
decision logic of the scripts is translated function-by-function.  Calls into
the SDK and file-handle operations are recorded in an event trace so that
claims about "no network call is made" or "the handle is closed on every
exit path" become statements about the trace.

Python-specific semantics that the embedding preserves:
  * truthiness of optional strings (`None` and `""` are falsy);
  * `str.strip()` emptiness, i.e. "the string is whitespace-only";
  * `x or y` on strings (falls through on `None` and on `""`);
  * the `with open(...)` statement closes the handle on every exit path,
    including when the body raises; the exception then propagates.
-/

/-- Python `bool(o)` is `False` for an absent option and for the empty
string; used by `argparse` result checks (`if not args.bucket`) and by the
`if acl:` guard. -/
def pyFalsy (o : Option String) : Bool :=
  match o with
  | none => true
  | some s => s == ""

/-- The whitespace characters recognised by the Python `str.strip()` method for
ASCII input: space, tab, newline, carriage return, vertical tab, form
feed. -/
def pyIsSpace (c : Char) : Bool :=
  c = ' ' || c = '\t' || c = '\n' || c = '\r' || c = '\x0b' || c = '\x0c'

/-- Python `not s.strip()`: the string is empty or consists only of
whitespace. -/
def pyBlank (s : String) : Bool :=
  s.data.all pyIsSpace

/-- The characters after the last slash of the list, when a slash occurs at
all. -/
def afterLastSlash : List Char → Option (List Char)
  | [] => none
  | c :: cs =>
    match afterLastSlash cs with
    | some r => some r
    | none => if c = '/' then some cs else none

/-- Behaviour of `os.path.basename` on POSIX paths: the component after the
last slash. -/
def basename (p : String) : String :=
  match afterLastSlash p.data with
  | some r => String.mk r
  | none => p

/-- Abstract local filesystem: which paths are existing regular files
(`os.path.isfile`) and their sizes in bytes (`os.path.getsize`). -/
structure FS where
  isFile : String → Bool
  size : String → Nat

/-- Observable effects of one uploader run: client construction, file-handle
open/close, and the two SDK upload operations with the arguments the script
passes to them. -/
inductive Event where
  | createClient (region : String)
  | openFile (path : String)
  | closeFile (path : String)
  | putObject (bucket key contentType storageClass : String) (acl : Option String)
  | uploadFile (bucket localPath key : String) (partSize maxThread : Int) (enableMD5 : Bool)
deriving DecidableEq, Repr

/-- Does the event call the SDK single-shot put operation? -/
def Event.isPutCall : Event → Bool
  | .putObject _ _ _ _ _ => true
  | _ => false

/-- Does the event call the SDK multipart upload operation? -/
def Event.isMultipartCall : Event → Bool
  | .uploadFile _ _ _ _ _ _ => true
  | _ => false

/-- The storage SDK as seen by the uploader: each operation either succeeds
or raises an exception carrying a message. -/
structure Remote where
  putObject : String → String → String → String → Option String → Except String Unit
  uploadFile : String → String → String → Int → Int → Bool → Except String Unit

/-- Failure outcomes of `upload_file_to_cos`: the `FileNotFoundError` it
raises itself, or any exception surfaced by the SDK. -/
inductive UploadError where
  | fileNotFound (path : String)
  | remoteError (msg : String)
deriving DecidableEq, Repr

/-- Lines 72-73 of `upload_to_cos.py`: `if key is None or not key.strip(): key =
os.path.basename(local_path)`. -/
def resolveKey (key : Option String) (local_path : String) : String :=
  match key with
  | none => basename local_path
  | some s => if pyBlank s then basename local_path else s

/-- Lines 75-77 of `upload_to_cos.py`: `if content_type is None: content_type =
guessed_type or "application/octet-stream"`. -/
def resolveContentType (content_type : Option String) (guessed : Option String) : String :=
  match content_type with
  | some c => c
  | none =>
      match guessed with
      | some g => if g == "" then "application/octet-stream" else g
      | none => "application/octet-stream"

/-- Lines 96-97 of `upload_to_cos.py`: `if acl: extra["ACL"] = acl` — the ACL is
passed only when truthy. -/
def aclParam (acl : Option String) : Option String :=
  match acl with
  | some s => if s == "" then none else some s
  | none => none

/-- Line 85 of `upload_to_cos.py`: `SMALL_FILE_THRESHOLD = 5 * 1024 * 1024`. -/
def SMALL_FILE_THRESHOLD : Nat := 5 * 1024 * 1024

/-- Semantics of the Python statement `with open(path) as fp: body`: the handle is
opened, the body runs, and the handle is closed on every exit path; an
exception raised by the body propagates afterwards. -/
def withOpen (path : String) (body : List Event × Except String Unit) :
    List Event × Except String Unit :=
  (Event.openFile path :: (body.1 ++ [Event.closeFile path]), body.2)

/-- The `client.put_object(**extra)` call on line 98, with the keyword
arguments assembled on lines 89-97. -/
def callPut (remote : Remote) (bucket key contentType storageClass : String)
    (acl : Option String) : List Event × Except String Unit :=
  ([Event.putObject bucket key contentType storageClass acl],
   remote.putObject bucket key contentType storageClass acl)

/-- Arguments of `upload_file_to_cos` (lines 49-63), with the defaults of
the script. -/
structure UploadArgs where
  bucket_name : String
  region : String
  secret_id : String
  secret_key : String
  local_path : String
  key : Option String := none
  storage_class : String := "STANDARD"
  content_type : Option String := none
  part_size_mb : Int := 8
  max_threads : Int := 5
  enable_md5 : Bool := false
  acl : Option String := none
  token : Option String := none

/-- Function `upload_file_to_cos` (lines 49-111): check the file exists, resolve key
and content type, create the client, pick the strategy by size, and invoke
the SDK; returns the key on success.  The result pairs the event trace with
the returned key or the raised error. -/
def upload_file_to_cos (fs : FS) (guess : String → Option String) (remote : Remote)
    (a : UploadArgs) : List Event × Except UploadError String :=
  if fs.isFile a.local_path = false then
    ([], .error (.fileNotFound a.local_path))
  else
    let key := resolveKey a.key a.local_path
    let content_type := resolveContentType a.content_type (guess a.local_path)
    let pre := [Event.createClient a.region]
    let file_size_bytes := fs.size a.local_path
    if file_size_bytes ≤ SMALL_FILE_THRESHOLD then
      let r := withOpen a.local_path
        (callPut remote a.bucket_name key content_type a.storage_class (aclParam a.acl))
      (pre ++ r.1,
       match r.2 with
       | .ok _ => .ok key
       | .error m => .error (.remoteError m))
    else
      let ps : Int := max 1 a.part_size_mb
      let mt : Int := max 1 a.max_threads
      let r := remote.uploadFile a.bucket_name a.local_path key ps mt a.enable_md5
      (pre ++ [Event.uploadFile a.bucket_name a.local_path key ps mt a.enable_md5],
       match r with
       | .ok _ => .ok key
       | .error m => .error (.remoteError m))

/-- Command-line flags of the uploader as given on the command line (absent
flags are `none`; `argparse` defaults for the non-environment flags are the
record defaults). -/
structure RawFlags where
  local_path : String
  key : Option String := none
  bucket : Option String := none
  region : Option String := none
  secret_id : Option String := none
  secret_key : Option String := none
  token : Option String := none
  storage_class : String := "STANDARD"
  content_type : Option String := none
  part_size : Int := 8
  threads : Int := 5
  md5 : Bool := false
  acl : Option String := none
  dry_run : Bool := false

/-- Environment variables the uploader consults. -/
structure Env where
  COS_BUCKET_NAME : Option String := none
  COS_REGION : Option String := none
  COS_SECRET_ID : Option String := none
  COS_SECRET_KEY : Option String := none
  COS_TOKEN : Option String := none

/-- The parsed argument namespace produced by `argparse`. -/
structure Args where
  local_path : String
  key : Option String
  bucket : Option String
  region : Option String
  secret_id : Option String
  secret_key : Option String
  token : Option String
  storage_class : String
  content_type : Option String
  part_size : Int
  threads : Int
  md5 : Bool
  acl : Option String
  dry_run : Bool
deriving DecidableEq, Repr

/-- Default merging done by `argparse` (lines 121-125): each credential flag
defaults to its environment variable, so the merged value is the flag when
given, else the environment value. -/
def mergeConfig (fl : RawFlags) (env : Env) : Args :=
  { local_path := fl.local_path
    key := fl.key
    bucket := fl.bucket.orElse fun _ => env.COS_BUCKET_NAME
    region := fl.region.orElse fun _ => env.COS_REGION
    secret_id := fl.secret_id.orElse fun _ => env.COS_SECRET_ID
    secret_key := fl.secret_key.orElse fun _ => env.COS_SECRET_KEY
    token := fl.token.orElse fun _ => env.COS_TOKEN
    storage_class := fl.storage_class
    content_type := fl.content_type
    part_size := fl.part_size
    threads := fl.threads
    md5 := fl.md5
    acl := fl.acl
    dry_run := fl.dry_run }

/-- Lines 136-144: the list of missing required configuration fields, in
source order. -/
def missingFields (bucket region secret_id secret_key : Option String) : List String :=
  (if pyFalsy bucket then ["--bucket or COS_BUCKET_NAME"] else []) ++
  (if pyFalsy region then ["--region or COS_REGION"] else []) ++
  (if pyFalsy secret_id then ["--secret-id or COS_SECRET_ID"] else []) ++
  (if pyFalsy secret_key then ["--secret-key or COS_SECRET_KEY"] else [])

/-- Function `parse_args` (lines 114-149): merge flags with environment fallbacks,
then fail with one `SystemExit` message enumerating every missing required
field, or return the namespace. -/
def parse_args (fl : RawFlags) (env : Env) : Except String Args :=
  let args := mergeConfig fl env
  let missing := missingFields args.bucket args.region args.secret_id args.secret_key
  if missing = [] then
    .ok args
  else
    .error ("Missing required configuration: " ++ String.intercalate ", " missing)

/-- Line 156 of `main`: `planned_key = args.key or os.path.basename(
args.local_path)` — Python `or` falls through on `None` and on `""` but
keeps any non-empty string, whitespace-only ones included. -/
def plannedKey (key : Option String) (local_path : String) : String :=
  match key with
  | none => basename local_path
  | some s => if s == "" then basename local_path else s

/-- In `main`, the `upload_file_to_cos` arguments are translated from the parsed
namespace (lines 172-186). -/
def toUploadArgs (args : Args) : UploadArgs :=
  { bucket_name := args.bucket.getD ""
    region := args.region.getD ""
    secret_id := args.secret_id.getD ""
    secret_key := args.secret_key.getD ""
    local_path := args.local_path
    key := args.key
    storage_class := args.storage_class
    content_type := args.content_type
    part_size_mb := args.part_size
    max_threads := args.threads
    enable_md5 := args.md5
    acl := args.acl
    token := args.token }

/-- Outcome of one uploader process run: the SDK/file events, the process
exit code, and the object key the run reports (the `Key:` line of the dry-run plan
or the `Object Key:` line printed on success). -/
structure RunResult where
  events : List Event
  exitCode : Nat
  printedKey : Option String
deriving DecidableEq, Repr

/-- Function `main` (lines 152-195): parse (a `SystemExit` with a string message
exits with code 1), handle `--dry-run` (plan only, exit 0), otherwise upload
and map success to 0, `FileNotFoundError` to 2, any other exception to 1. -/
def mainRun (fs : FS) (guess : String → Option String) (remote : Remote)
    (fl : RawFlags) (env : Env) : RunResult :=
  match parse_args fl env with
  | .error _ => { events := [], exitCode := 1, printedKey := none }
  | .ok args =>
    if args.dry_run then
      { events := [], exitCode := 0, printedKey := some (plannedKey args.key args.local_path) }
    else
      let r := upload_file_to_cos fs guess remote (toUploadArgs args)
      match r.2 with
      | .ok obj_key => { events := r.1, exitCode := 0, printedKey := some obj_key }
      | .error (.fileNotFound _) => { events := r.1, exitCode := 2, printedKey := none }
      | .error (.remoteError _) => { events := r.1, exitCode := 1, printedKey := none }

/-- One entry of the `Contents` array of a COS list response. -/
structure CosEntry where
  Key : String
deriving DecidableEq, Repr

/-- A COS `list_objects` response: the `Contents` key may be absent. -/
structure ListResponse where
  Contents : Option (List CosEntry)
deriving DecidableEq, Repr

/-- The storage SDK as seen by the lister: `list_objects(Bucket, Prefix,
Delimiter, MaxKeys)` either returns a response or raises. -/
structure ListClient where
  list_objects : String → String → String → Nat → Except String ListResponse

/-- Lines 44-48 of `list_cos_objects.py`: the keys extracted from the
response, empty when `Contents` is absent. -/
def contentsKeys (response : ListResponse) : List String :=
  match response.Contents with
  | some objs => objs.map (fun o => o.Key)
  | none => []

/-- Function `list_cos_objects` (lines 11-53): one flat listing with `Delimiter=""`
and `MaxKeys=1000`; any exception yields Python `None`, otherwise the key
list (possibly empty). -/
def list_cos_objects (client : ListClient) (bucket_name region secret_id secret_key : String)
    (pfx : String) : Option (List String) :=
  match client.list_objects bucket_name pfx "" 1000 with
  | .error _ => none
  | .ok response => some (contentsKeys response)

/-- Environment variables the lister consults. -/
structure ListerEnv where
  COS_BUCKET_NAME : Option String := none
  COS_REGION : Option String := none
  COS_SECRET_ID : Option String := none
  COS_SECRET_KEY : Option String := none

/-- Line 57: bucket name with the hardcoded fallback default. -/
def listerBucket (env : ListerEnv) : String :=
  env.COS_BUCKET_NAME.getD "property-property-cos-website-one-property-1359404038"

/-- Line 58: region with the hardcoded fallback default. -/
def listerRegion (env : ListerEnv) : String :=
  env.COS_REGION.getD "ap-singapore"

/-- Line 59: secret id with the hardcoded fallback default. -/
def listerSecretId (env : ListerEnv) : String :=
  env.COS_SECRET_ID.getD "IKIDOo13rRXR7ZrwnSu88tQkpxwDMSQCl8KM"

/-- Line 60: secret key with the hardcoded fallback default. -/
def listerSecretKey (env : ListerEnv) : String :=
  env.COS_SECRET_KEY.getD "vc8UfcLsJYaR8c5c0EHAwkojW8XqzwgG"

/-- Function `main` of `list_cos_objects.py` (lines 55-89): list with `prefix=""`,
exit 0 whenever the call did not raise (empty result included), else 1. -/
def lister_main (client : ListClient) (env : ListerEnv) : Nat :=
  let objects := list_cos_objects client (listerBucket env) (listerRegion env)
    (listerSecretId env) (listerSecretKey env) ""
  match objects with
  | some _ => 0
  | none => 1

/-! Concrete fixtures used by the witness theorems. -/

/-- A filesystem holding one file of exactly 5 MiB. -/
def fsSmall : FS :=
  { isFile := fun p => p == "/tmp/a.zip", size := fun _ => 5 * 1024 * 1024 }

/-- A filesystem holding one file of 5 MiB plus one byte. -/
def fsBig : FS :=
  { isFile := fun p => p == "/tmp/a.zip", size := fun _ => 5 * 1024 * 1024 + 1 }

/-- A filesystem with no files at all. -/
def fsNone : FS :=
  { isFile := fun _ => false, size := fun _ => 0 }

/-- A MIME guesser that recognises nothing. -/
def guess0 : String → Option String := fun _ => none

/-- An SDK whose operations always succeed. -/
def remoteOk : Remote :=
  { putObject := fun _ _ _ _ _ => .ok ()
    uploadFile := fun _ _ _ _ _ _ => .ok () }

/-- An SDK whose operations always raise. -/
def remoteBoom : Remote :=
  { putObject := fun _ _ _ _ _ => .error "boom"
    uploadFile := fun _ _ _ _ _ _ => .error "boom" }

/-- Baseline upload arguments for the fixture file, everything defaulted. -/
def argsSmall : UploadArgs :=
  { bucket_name := "b", region := "r", secret_id := "i", secret_key := "k"
    local_path := "/tmp/a.zip" }

/-- The fixture arguments with a whitespace-only explicit key. -/
def argsWS : UploadArgs := { argsSmall with key := some "   " }

/-- The fixture arguments with a non-blank explicit key. -/
def argsVerbatim : UploadArgs := { argsSmall with key := some "releases/app.zip" }

/-- The fixture arguments with out-of-range multipart parameters. -/
def argsNeg : UploadArgs := { argsSmall with part_size_mb := -3, max_threads := 0 }

/-- An empty environment. -/
def envEmpty : Env := {}

/-- Valid flags except that bucket and region are missing. -/
def flMissing : RawFlags :=
  { local_path := "/tmp/a.zip", secret_id := some "i", secret_key := some "k" }

/-- Fully valid flags with the dry-run switch set. -/
def flDry : RawFlags :=
  { local_path := "/tmp/a.zip", bucket := some "b", region := some "r"
    secret_id := some "i", secret_key := some "k", dry_run := true }

/-- Fully valid flags pointing at a path that does not exist. -/
def flNoFile : RawFlags :=
  { local_path := "/tmp/missing.bin", bucket := some "b", region := some "r"
    secret_id := some "i", secret_key := some "k" }

/-- A list client that reports a response without a Contents key. -/
def clientEmpty : ListClient :=
  { list_objects := fun _ _ _ _ => .ok { Contents := none } }

/-- An empty lister environment. -/
def envLister : ListerEnv := {}

/-- C1: for an existing file, the uploader issues the single-shot put
operation exactly when the size is at most `SMALL_FILE_THRESHOLD`
(5×1024×1024 bytes), and the multipart operation exactly when the size
is strictly greater. -/
theorem upload_strategy_threshold (fs : FS) (guess : String → Option String)
    (remote : Remote) (a : UploadArgs) (hf : fs.isFile a.local_path = true) :
    ((upload_file_to_cos fs guess remote a).1.any Event.isPutCall
        = decide (fs.size a.local_path ≤ SMALL_FILE_THRESHOLD))
    ∧ ((upload_file_to_cos fs guess remote a).1.any Event.isMultipartCall
        = decide (SMALL_FILE_THRESHOLD < fs.size a.local_path)) := by
  by_cases hsz : fs.size a.local_path ≤ SMALL_FILE_THRESHOLD
  · simp [upload_file_to_cos, hf, hsz, withOpen, callPut,
      Event.isPutCall, Event.isMultipartCall, Nat.not_lt.mpr hsz]
  · simp [upload_file_to_cos, hf, hsz, Event.isPutCall, Event.isMultipartCall,
      Nat.lt_of_not_le hsz]

/-- Witness for C1 at the boundary: a file of exactly 5 MiB goes through the
put operation, one of 5 MiB + 1 bytes through the multipart operation. -/
theorem upload_strategy_threshold_witness :
    (fsSmall.isFile "/tmp/a.zip" = true
      ∧ (upload_file_to_cos fsSmall guess0 remoteOk argsSmall).1.any Event.isPutCall = true
      ∧ (upload_file_to_cos fsSmall guess0 remoteOk argsSmall).1.any Event.isMultipartCall = false)
    ∧ (fsBig.isFile "/tmp/a.zip" = true
      ∧ (upload_file_to_cos fsBig guess0 remoteOk argsSmall).1.any Event.isPutCall = false
      ∧ (upload_file_to_cos fsBig guess0 remoteOk argsSmall).1.any Event.isMultipartCall = true) :=
  ⟨⟨by decide,
    ((upload_strategy_threshold fsSmall guess0 remoteOk argsSmall (by decide)).1).trans (by decide),
    ((upload_strategy_threshold fsSmall guess0 remoteOk argsSmall (by decide)).2).trans (by decide)⟩,
   ⟨by decide,
    ((upload_strategy_threshold fsBig guess0 remoteOk argsSmall (by decide)).1).trans (by decide),
    ((upload_strategy_threshold fsBig guess0 remoteOk argsSmall (by decide)).2).trans (by decide)⟩⟩

/-- C3: the resolved content type is the explicit override when given;
otherwise the guessed MIME type when the extension is recognised; otherwise
exactly "application/octet-stream". -/
theorem content_type_resolution (content_type guessed : Option String) :
    (∀ c, content_type = some c → resolveContentType content_type guessed = c)
    ∧ (content_type = none → ∀ g, guessed = some g → g ≠ "" →
        resolveContentType content_type guessed = g)
    ∧ (content_type = none → guessed = none →
        resolveContentType content_type guessed = "application/octet-stream") := by
  refine ⟨?_, ?_, ?_⟩ <;> intros <;> subst_vars <;> simp_all [resolveContentType]

/-- Witness for C3: an override beats a recognised extension; a recognised
extension is used without an override; an unrecognised extension falls back
to application/octet-stream. -/
theorem content_type_resolution_witness :
    resolveContentType (some "text/plain") (some "application/zip") = "text/plain"
    ∧ resolveContentType none (some "application/zip") = "application/zip"
    ∧ resolveContentType none none = "application/octet-stream" :=
  ⟨(content_type_resolution (some "text/plain") (some "application/zip")).1 "text/plain" rfl,
   (content_type_resolution none (some "application/zip")).2.1 rfl "application/zip" rfl
     (by decide),
   (content_type_resolution none none).2.2 rfl rfl⟩

/-- C4: a blank key argument (absent, empty, or whitespace-only) resolves to
the base name of the local path; a non-blank key resolves verbatim; and the
key returned by a successful upload is exactly the resolved key. -/
theorem resolved_key_spec (fs : FS) (guess : String → Option String) (remote : Remote)
    (a : UploadArgs) :
    ((a.key = none ∨ ∃ s, a.key = some s ∧ pyBlank s = true) →
        resolveKey a.key a.local_path = basename a.local_path)
    ∧ (∀ s, a.key = some s → pyBlank s = false →
        resolveKey a.key a.local_path = s)
    ∧ (∀ k, (upload_file_to_cos fs guess remote a).2 = .ok k →
        k = resolveKey a.key a.local_path) := by
  refine ⟨?_, ?_, ?_⟩
  · rintro (hnone | ⟨s, hs, hblank⟩)
    · simp [resolveKey, hnone]
    · simp [resolveKey, hs, hblank]
  · intro s hs hnb
    simp [resolveKey, hs, hnb]
  · intro k hk
    by_cases hf : fs.isFile a.local_path = false
    · simp [upload_file_to_cos, hf] at hk
    · by_cases hsz : fs.size a.local_path ≤ SMALL_FILE_THRESHOLD
      · rcases hput : remote.putObject a.bucket_name (resolveKey a.key a.local_path)
            (resolveContentType a.content_type (guess a.local_path)) a.storage_class
            (aclParam a.acl) with u | m <;>
          simp_all [upload_file_to_cos, hf, hsz, withOpen, callPut, hput]
      · rcases hup : remote.uploadFile a.bucket_name a.local_path
            (resolveKey a.key a.local_path) (max 1 a.part_size_mb) (max 1 a.max_threads)
            a.enable_md5 with u | m <;>
          simp_all [upload_file_to_cos, hf, hsz, hup]

/-- Witness for C4: a whitespace-only key resolves to the base name, a
non-blank key resolves verbatim, and a successful concrete upload returns
the resolved key. -/
theorem resolved_key_spec_witness :
    resolveKey (some "   ") "/tmp/a.zip" = basename "/tmp/a.zip"
    ∧ resolveKey (some "releases/app.zip") "/tmp/a.zip" = "releases/app.zip"
    ∧ "a.zip" = resolveKey (some "   ") "/tmp/a.zip" :=
  ⟨(resolved_key_spec fsSmall guess0 remoteOk argsWS).1 (Or.inr ⟨"   ", rfl, by decide⟩),
   (resolved_key_spec fsSmall guess0 remoteOk argsVerbatim).2.1 "releases/app.zip" rfl
     (by decide),
   (resolved_key_spec fsSmall guess0 remoteOk argsWS).2.2 "a.zip" rfl⟩

/-- C8: on the direct path the event trace is, for every behaviour of the
SDK (succeeding or raising), open / put / close in that order, so the file
handle is closed on every exit path and does not outlive the call. -/
theorem direct_handle_closed (fs : FS) (guess : String → Option String) (remote : Remote)
    (a : UploadArgs) (hf : fs.isFile a.local_path = true)
    (hsz : fs.size a.local_path ≤ SMALL_FILE_THRESHOLD) :
    (upload_file_to_cos fs guess remote a).1
      = [Event.createClient a.region,
         Event.openFile a.local_path,
         Event.putObject a.bucket_name (resolveKey a.key a.local_path)
           (resolveContentType a.content_type (guess a.local_path)) a.storage_class
           (aclParam a.acl),
         Event.closeFile a.local_path]
    ∧ Event.closeFile a.local_path ∈ (upload_file_to_cos fs guess remote a).1 := by
  have h1 : (upload_file_to_cos fs guess remote a).1
      = [Event.createClient a.region,
         Event.openFile a.local_path,
         Event.putObject a.bucket_name (resolveKey a.key a.local_path)
           (resolveContentType a.content_type (guess a.local_path)) a.storage_class
           (aclParam a.acl),
         Event.closeFile a.local_path] := by
    simp [upload_file_to_cos, hf, hsz, withOpen, callPut]
  exact ⟨h1, by simp [h1]⟩

/-- Witness for C8 with an SDK put operation that raises: the close event is
still emitted right after the put call. -/
theorem direct_handle_closed_witness :
    (upload_file_to_cos fsSmall guess0 remoteBoom argsSmall).1
      = [Event.createClient "r", Event.openFile "/tmp/a.zip",
         Event.putObject "b" "a.zip" "application/octet-stream" "STANDARD" none,
         Event.closeFile "/tmp/a.zip"] :=
  ((direct_handle_closed fsSmall guess0 remoteBoom argsSmall (by decide) (by decide)).1).trans
    (by decide)

/-- C9: on the multipart path the part size and thread count passed to the
SDK are clamped to at least 1, for every integer input including zero and
negative values. -/
theorem multipart_params_clamped (fs : FS) (guess : String → Option String) (remote : Remote)
    (a : UploadArgs) (hf : fs.isFile a.local_path = true)
    (hsz : SMALL_FILE_THRESHOLD < fs.size a.local_path) :
    (upload_file_to_cos fs guess remote a).1
      = [Event.createClient a.region,
         Event.uploadFile a.bucket_name a.local_path (resolveKey a.key a.local_path)
           (max 1 a.part_size_mb) (max 1 a.max_threads) a.enable_md5]
    ∧ 1 ≤ max 1 a.part_size_mb ∧ 1 ≤ max 1 a.max_threads := by
  refine ⟨?_, le_max_left _ _, le_max_left _ _⟩
  simp [upload_file_to_cos, hf, Nat.not_le.mpr hsz]

/-- Witness for C9: part size -3 and thread count 0 are both clamped to 1 in
the multipart call. -/
theorem multipart_params_clamped_witness :
    (upload_file_to_cos fsBig guess0 remoteOk argsNeg).1
      = [Event.createClient "r", Event.uploadFile "b" "/tmp/a.zip" "a.zip" 1 1 false] :=
  ((multipart_params_clamped fsBig guess0 remoteOk argsNeg (by decide) (by decide)).1).trans
    (by decide)

/-- C10: the dry-run planned key and the real resolved key agree when the
key is absent, empty, or has a non-whitespace character; for a non-empty
whitespace-only key the dry run keeps it verbatim while the real upload
resolves to the base name, and the two differ whenever the base name is not
that whitespace string. -/
theorem plan_vs_real_key (k : Option String) (p : String) :
    ((k = none ∨ k = some "") →
        plannedKey k p = basename p ∧ resolveKey k p = basename p)
    ∧ (∀ s, k = some s → pyBlank s = false →
        plannedKey k p = s ∧ resolveKey k p = s)
    ∧ (∀ s, k = some s → s ≠ "" → pyBlank s = true →
        plannedKey k p = s ∧ resolveKey k p = basename p)
    ∧ (∀ s, k = some s → s ≠ "" → pyBlank s = true → basename p ≠ s →
        plannedKey k p ≠ resolveKey k p) := by
  refine ⟨?_, ?_, ?_, ?_⟩
  · rintro (h | h)
    · simp [plannedKey, resolveKey, h]
    · simp [plannedKey, resolveKey, h, pyBlank]
  · intro s hs hnb
    have hne : s ≠ "" := by
      intro h
      subst h
      simp [pyBlank] at hnb
    simp [plannedKey, resolveKey, hs, hnb, hne]
  · intro s hs hne hb
    simp [plannedKey, resolveKey, hs, hne, hb]
  · intro s hs hne hb hdiff
    have h1 : plannedKey k p = s := by simp [plannedKey, hs, hne]
    have h2 : resolveKey k p = basename p := by simp [resolveKey, hs, hb]
    rw [h1, h2]
    exact fun h => hdiff h.symm

/-- Witness for C10: with key "   " the dry run plans the key "   " while
the real resolution yields the base name, and the two disagree. -/
theorem plan_vs_real_key_witness :
    (plannedKey (some "   ") "/tmp/a.zip" = "   "
      ∧ resolveKey (some "   ") "/tmp/a.zip" = basename "/tmp/a.zip")
    ∧ plannedKey (some "   ") "/tmp/a.zip" ≠ resolveKey (some "   ") "/tmp/a.zip" :=
  ⟨(plan_vs_real_key (some "   ") "/tmp/a.zip").2.2.1 "   " rfl (by decide) (by decide),
   (plan_vs_real_key (some "   ") "/tmp/a.zip").2.2.2 "   " rfl (by decide) (by decide)
     (by decide)⟩

/-- Helper: parsing succeeds and returns the merged namespace exactly when
no required field is missing. -/
theorem parse_args_ok (fl : RawFlags) (env : Env)
    (hvalid : missingFields (mergeConfig fl env).bucket (mergeConfig fl env).region
        (mergeConfig fl env).secret_id (mergeConfig fl env).secret_key = []) :
    parse_args fl env = .ok (mergeConfig fl env) := by
  simp [parse_args, hvalid]

/-- C2: on a path that is not an existing regular file, the upload fails
with the file-not-found outcome, with an empty event trace (so in
particular no client is ever constructed and no SDK operation runs), and
the process maps this failure to exit code 2. -/
theorem local_file_not_found (fs : FS) (guess : String → Option String) (remote : Remote)
    (fl : RawFlags) (env : Env)
    (hvalid : missingFields (mergeConfig fl env).bucket (mergeConfig fl env).region
        (mergeConfig fl env).secret_id (mergeConfig fl env).secret_key = [])
    (hdry : fl.dry_run = false)
    (hnf : fs.isFile fl.local_path = false) :
    upload_file_to_cos fs guess remote (toUploadArgs (mergeConfig fl env))
        = ([], .error (.fileNotFound fl.local_path))
    ∧ mainRun fs guess remote fl env = { events := [], exitCode := 2, printedKey := none } := by
  have hp : (toUploadArgs (mergeConfig fl env)).local_path = fl.local_path := rfl
  have h1 : upload_file_to_cos fs guess remote (toUploadArgs (mergeConfig fl env))
      = ([], .error (.fileNotFound fl.local_path)) := by
    simp [upload_file_to_cos, hp, hnf]
  have hd : (mergeConfig fl env).dry_run = false := hdry
  refine ⟨h1, ?_⟩
  simp [mainRun, parse_args_ok fl env hvalid, hd, h1]

/-- Witness for C2: with valid configuration and a missing local file the
trace is empty, the outcome is the not-found error, and the exit code
is 2. -/
theorem local_file_not_found_witness :
    upload_file_to_cos fsNone guess0 remoteOk (toUploadArgs (mergeConfig flNoFile envEmpty))
        = ([], .error (.fileNotFound "/tmp/missing.bin"))
    ∧ mainRun fsNone guess0 remoteOk flNoFile envEmpty
        = { events := [], exitCode := 2, printedKey := none } :=
  local_file_not_found fsNone guess0 remoteOk flNoFile envEmpty (by decide) rfl rfl

/-- Helper: each of the four required-field labels occurs in the missing
list exactly when the corresponding merged value is falsy. -/
theorem mem_missingFields (b r i k : Option String) :
    (pyFalsy b = true ↔ "--bucket or COS_BUCKET_NAME" ∈ missingFields b r i k)
    ∧ (pyFalsy r = true ↔ "--region or COS_REGION" ∈ missingFields b r i k)
    ∧ (pyFalsy i = true ↔ "--secret-id or COS_SECRET_ID" ∈ missingFields b r i k)
    ∧ (pyFalsy k = true ↔ "--secret-key or COS_SECRET_KEY" ∈ missingFields b r i k) := by
  cases hb : pyFalsy b <;> cases hr : pyFalsy r <;> cases hi : pyFalsy i <;>
    cases hk : pyFalsy k <;> simp [missingFields, hb, hr, hi, hk]

/-- C5: when at least two required fields are missing, parsing fails with
the single message enumerating the whole missing list, that list contains
the label of every missing field (and only those), and the process run
performs no SDK event and exits nonzero. -/
theorem missing_config_enumerated (fs : FS) (guess : String → Option String) (remote : Remote)
    (fl : RawFlags) (env : Env)
    (h2 : 2 ≤ (missingFields (mergeConfig fl env).bucket (mergeConfig fl env).region
        (mergeConfig fl env).secret_id (mergeConfig fl env).secret_key).length) :
    parse_args fl env = .error ("Missing required configuration: "
        ++ String.intercalate ", " (missingFields (mergeConfig fl env).bucket
            (mergeConfig fl env).region (mergeConfig fl env).secret_id
            (mergeConfig fl env).secret_key))
    ∧ ((pyFalsy (mergeConfig fl env).bucket = true ↔
        "--bucket or COS_BUCKET_NAME" ∈ missingFields (mergeConfig fl env).bucket
          (mergeConfig fl env).region (mergeConfig fl env).secret_id
          (mergeConfig fl env).secret_key)
      ∧ (pyFalsy (mergeConfig fl env).region = true ↔
        "--region or COS_REGION" ∈ missingFields (mergeConfig fl env).bucket
          (mergeConfig fl env).region (mergeConfig fl env).secret_id
          (mergeConfig fl env).secret_key)
      ∧ (pyFalsy (mergeConfig fl env).secret_id = true ↔
        "--secret-id or COS_SECRET_ID" ∈ missingFields (mergeConfig fl env).bucket
          (mergeConfig fl env).region (mergeConfig fl env).secret_id
          (mergeConfig fl env).secret_key)
      ∧ (pyFalsy (mergeConfig fl env).secret_key = true ↔
        "--secret-key or COS_SECRET_KEY" ∈ missingFields (mergeConfig fl env).bucket
          (mergeConfig fl env).region (mergeConfig fl env).secret_id
          (mergeConfig fl env).secret_key))
    ∧ mainRun fs guess remote fl env = { events := [], exitCode := 1, printedKey := none } := by
  have hne : missingFields (mergeConfig fl env).bucket (mergeConfig fl env).region
      (mergeConfig fl env).secret_id (mergeConfig fl env).secret_key ≠ [] := by
    intro h
    rw [h] at h2
    simp at h2
  have herr : parse_args fl env = .error ("Missing required configuration: "
      ++ String.intercalate ", " (missingFields (mergeConfig fl env).bucket
          (mergeConfig fl env).region (mergeConfig fl env).secret_id
          (mergeConfig fl env).secret_key)) := by
    simp [parse_args, hne]
  refine ⟨herr, mem_missingFields _ _ _ _, ?_⟩
  simp [mainRun, herr]

/-- Witness for C5: with bucket and region both missing, the one failure
message names both of them and the run exits 1 with no SDK event. -/
theorem missing_config_enumerated_witness :
    parse_args flMissing envEmpty = .error
        "Missing required configuration: --bucket or COS_BUCKET_NAME, --region or COS_REGION"
    ∧ mainRun fsNone guess0 remoteOk flMissing envEmpty
        = { events := [], exitCode := 1, printedKey := none } :=
  ⟨((missing_config_enumerated fsNone guess0 remoteOk flMissing envEmpty (by decide)).1).trans
      (by rfl),
   (missing_config_enumerated fsNone guess0 remoteOk flMissing envEmpty (by decide)).2.2⟩

/-- C6: with otherwise-valid arguments and the dry-run switch, the run
issues no put call and no multipart call and exits 0. -/
theorem dry_run_no_calls (fs : FS) (guess : String → Option String) (remote : Remote)
    (fl : RawFlags) (env : Env)
    (hvalid : missingFields (mergeConfig fl env).bucket (mergeConfig fl env).region
        (mergeConfig fl env).secret_id (mergeConfig fl env).secret_key = [])
    (hdry : fl.dry_run = true) :
    (mainRun fs guess remote fl env).events.any Event.isPutCall = false
    ∧ (mainRun fs guess remote fl env).events.any Event.isMultipartCall = false
    ∧ (mainRun fs guess remote fl env).exitCode = 0 := by
  have hd : (mergeConfig fl env).dry_run = true := hdry
  simp [mainRun, parse_args_ok fl env hvalid, hd]

/-- Witness for C6: a concrete dry run against an SDK that would raise on
any call still exits 0 and calls nothing. -/
theorem dry_run_no_calls_witness :
    (mainRun fsNone guess0 remoteBoom flDry envEmpty).events.any Event.isPutCall = false
    ∧ (mainRun fsNone guess0 remoteBoom flDry envEmpty).events.any Event.isMultipartCall = false
    ∧ (mainRun fsNone guess0 remoteBoom flDry envEmpty).exitCode = 0 :=
  dry_run_no_calls fsNone guess0 remoteBoom flDry envEmpty (by decide) rfl

/-- C7: when the SDK reports a listing without contents, the lister returns
the empty sequence rather than the error value, and the process exits 0. -/
theorem empty_listing_ok (client : ListClient) (env : ListerEnv) (resp : ListResponse)
    (hresp : client.list_objects (listerBucket env) "" "" 1000 = .ok resp)
    (hempty : contentsKeys resp = []) :
    list_cos_objects client (listerBucket env) (listerRegion env) (listerSecretId env)
        (listerSecretKey env) "" = some []
    ∧ lister_main client env = 0 := by
  have h1 : list_cos_objects client (listerBucket env) (listerRegion env) (listerSecretId env)
      (listerSecretKey env) "" = some [] := by
    simp [list_cos_objects, hresp, hempty]
  exact ⟨h1, by simp [lister_main, h1]⟩

/-- Witness for C7: a response with no Contents key yields the empty list
and exit code 0. -/
theorem empty_listing_ok_witness :
    list_cos_objects clientEmpty (listerBucket envLister) (listerRegion envLister)
        (listerSecretId envLister) (listerSecretKey envLister) "" = some []
    ∧ lister_main clientEmpty envLister = 0 :=
  empty_listing_ok clientEmpty envLister { Contents := none } rfl rfl
